import Mathlib

/-!
Verification of the report scheduling and delivery pipeline of
`superset/tasks/schedules.py` (and the model declarations of
`superset/models/schedules.py`).

Time is modelled as whole seconds since `datetime.min`
(0001-01-01T00:00:00), so `datetime.min` is `0` and all subtractions of
datetimes are ordinary truncated `Nat` subtraction (every datetime the code
handles is at or after `datetime.min`).  All datetimes appearing in the
source are second-aligned, so nothing is lost by dropping microseconds.

A cron expression is modelled by its matching predicate `m : Nat → Bool`
(the set of instants at which the expression fires).  The iterator
`croniter.croniter(crontab, start_at).all_next(datetime)` is the ascending
stream of instants `t` with `m t = true` and `t > start_at`: croniter
yields matches strictly after its initialisation time, never the
initialisation time itself.
-/

/-- Matching instants of the cron iterator that lie in `(base, base + h]`:
the finite prefix of the infinite `all_next` stream that a run of the
`next_schedules` loop with `stop_at ≤ base + h` can ever inspect.  The
theorem for claim C3 proves the loop output does not depend on `h` once
`h` covers the window. -/
def candidates (m : Nat → Bool) (base h : Nat) : List Nat :=
  (List.range' (base + 1) h).filter m

/-- The loop of `next_schedules` (schedules.py lines 350-363): walk the
cron iterator; break at the first `eta ≥ stop_at`; skip `eta < start_at`;
skip an `eta` closer than `resolution` seconds to the previously yielded
value (`previous` starts at `datetime.min`, i.e. `0`); otherwise yield
`eta` and remember it as `previous`. -/
def next_schedules_loop (start_at stop_at resolution : Nat) :
    List Nat → Nat → List Nat
  | [], _ => []
  | eta :: rest, previous =>
    if stop_at ≤ eta then []
    else if eta < start_at then
      next_schedules_loop start_at stop_at resolution rest previous
    else if eta - previous < resolution then
      next_schedules_loop start_at stop_at resolution rest previous
    else eta :: next_schedules_loop start_at stop_at resolution rest eta

/-- Runs `next_schedules` on the iterator prefix of length `h`. -/
def next_schedules_horizon (m : Nat → Bool) (start_at stop_at resolution h : Nat) :
    List Nat :=
  next_schedules_loop start_at stop_at resolution (candidates m start_at h) 0

/-- Embeds `next_schedules(crontab, start_at, stop_at, resolution=0)` (lines
347-363).  The prefix of length `stop_at - start_at` contains every
candidate below `stop_at`, so by the stability theorem proved for claim C3
this equals the run over the conceptually infinite iterator. -/
def next_schedules (m : Nat → Bool) (start_at stop_at resolution : Nat) : List Nat :=
  next_schedules_horizon m start_at stop_at resolution (stop_at - start_at)

/-- croniter's matching predicate for the cron expression `"0 * * * *"`:
fires at every top of the hour.  `datetime.min` is a top of the hour and
days have 86400 seconds, so those are exactly the multiples of 3600. -/
def hourly_cron (t : Nat) : Bool := t % 3600 == 0

/-- Seconds from `datetime.min` to 2024-01-01T00:00:00: the proleptic
ordinal of 2024-01-01 is 738885 (738884 whole days after 0001-01-01). -/
def jan1_2024 : Nat := 738884 * 86400

theorem next_schedules_loop_subset (s e r : Nat) :
    ∀ (l : List Nat) (p x : Nat),
      x ∈ next_schedules_loop s e r l p → x ∈ l ∧ s ≤ x ∧ x < e := by
  intro l
  induction l with
  | nil => intro p x hx; simp [next_schedules_loop] at hx
  | cons a t ih =>
    intro p x hx
    simp only [next_schedules_loop] at hx
    by_cases h1 : e ≤ a
    · simp [h1] at hx
    · rw [if_neg h1] at hx
      by_cases h2 : a < s
      · rw [if_pos h2] at hx
        obtain ⟨hm, hs, he⟩ := ih p x hx
        exact ⟨List.mem_cons_of_mem _ hm, hs, he⟩
      · rw [if_neg h2] at hx
        by_cases h3 : a - p < r
        · rw [if_pos h3] at hx
          obtain ⟨hm, hs, he⟩ := ih p x hx
          exact ⟨List.mem_cons_of_mem _ hm, hs, he⟩
        · rw [if_neg h3] at hx
          rcases List.mem_cons.mp hx with h | h
          · subst h
            exact ⟨List.mem_cons_self _ _, Nat.le_of_not_lt h2, Nat.lt_of_not_le h1⟩
          · obtain ⟨hm, hs, he⟩ := ih a x h
            exact ⟨List.mem_cons_of_mem _ hm, hs, he⟩

theorem next_schedules_loop_chain (s e r : Nat) :
    ∀ (l : List Nat) (p : Nat), l.Pairwise (· < ·) →
      (next_schedules_loop s e r l p).Chain' (fun a b => a < b ∧ r ≤ b - a)
        ∧ ∀ y ∈ next_schedules_loop s e r l p, r ≤ y - p := by
  intro l
  induction l with
  | nil => intro p _; simp [next_schedules_loop]
  | cons a t ih =>
    intro p hpw
    obtain ⟨hlt, hpw'⟩ := List.pairwise_cons.mp hpw
    simp only [next_schedules_loop]
    by_cases h1 : e ≤ a
    · simp [h1]
    · rw [if_neg h1]
      by_cases h2 : a < s
      · rw [if_pos h2]; exact ih p hpw'
      · rw [if_neg h2]
        by_cases h3 : a - p < r
        · rw [if_pos h3]; exact ih p hpw'
        · rw [if_neg h3]
          have hr : r ≤ a - p := Nat.le_of_not_lt h3
          obtain ⟨hch, hall⟩ := ih a hpw'
          constructor
          · refine List.chain'_cons'.mpr ⟨?_, hch⟩
            intro b hb
            have hbmem : b ∈ next_schedules_loop s e r t a := List.mem_of_mem_head? hb
            have hbt : b ∈ t := (next_schedules_loop_subset s e r t a b hbmem).1
            exact ⟨hlt b hbt, hall b hbmem⟩
          · intro y hy
            rcases List.mem_cons.mp hy with h | h
            · subst h; exact hr
            · have hya : r ≤ y - a := hall y h
              rcases Nat.eq_zero_or_pos r with hr0 | hrpos
              · omega
              · have hpa : p ≤ a := by omega
                exact le_trans hya (Nat.sub_le_sub_left hpa y)

theorem candidates_pairwise (m : Nat → Bool) (base h : Nat) :
    (candidates m base h).Pairwise (· < ·) :=
  List.Pairwise.filter _ (List.pairwise_lt_range' _ _)

theorem mem_candidates (m : Nat → Bool) (base h x : Nat)
    (hx : x ∈ candidates m base h) : m x = true ∧ base < x := by
  unfold candidates at hx
  rw [List.mem_filter] at hx
  refine ⟨hx.2, ?_⟩
  have := (List.mem_range'_1.mp hx.1).1
  omega

/-- Claim C1: every timestamp yielded by `next_schedules` lies in
`[start_at, stop_at)` and matches the cron expression; the yielded
sequence is strictly increasing and consecutive entries differ by at
least `resolution` seconds. -/
theorem C1_resolver_soundness (m : Nat → Bool) (s e r : Nat) :
    (∀ t ∈ next_schedules m s e r, (s ≤ t ∧ t < e) ∧ m t = true)
      ∧ (next_schedules m s e r).Chain' (fun a b => a < b ∧ r ≤ b - a) := by
  constructor
  · intro t ht
    simp only [next_schedules, next_schedules_horizon] at ht
    have h := next_schedules_loop_subset s e r _ 0 t ht
    exact ⟨⟨h.2.1, h.2.2⟩, (mem_candidates m s _ t h.1).1⟩
  · exact (next_schedules_loop_chain s e r _ 0 (candidates_pairwise m s _)).1

theorem C1_resolver_soundness_witness :
    4 ∈ next_schedules (fun t => t % 2 == 0) 1 10 3
      ∧ ((1 ≤ 4 ∧ 4 < 10) ∧ (4 % 2 == 0) = true) :=
  ⟨by decide, (C1_resolver_soundness (fun t => t % 2 == 0) 1 10 3).1 4 (by decide)⟩

theorem next_schedules_loop_append (s e r : Nat) :
    ∀ (l₁ l₂ : List Nat) (p : Nat), (∀ x ∈ l₂, e ≤ x) →
      next_schedules_loop s e r (l₁ ++ l₂) p = next_schedules_loop s e r l₁ p := by
  intro l₁
  induction l₁ with
  | nil =>
    intro l₂ p h
    cases l₂ with
    | nil => rfl
    | cons b t =>
      rw [List.nil_append]
      simp only [next_schedules_loop]
      rw [if_pos (h b (List.mem_cons_self b t))]
  | cons a t ih =>
    intro l₂ p h
    simp only [List.cons_append, next_schedules_loop]
    by_cases h1 : e ≤ a
    · simp [h1]
    · rw [if_neg h1, if_neg h1]
      by_cases h2 : a < s
      · rw [if_pos h2, if_pos h2]
        exact ih l₂ p h
      · rw [if_neg h2, if_neg h2]
        by_cases h3 : a - p < r
        · rw [if_pos h3, if_pos h3]
          exact ih l₂ p h
        · rw [if_neg h3, if_neg h3]
          exact congrArg (List.cons a) (ih l₂ a h)

theorem candidates_split (m : Nat → Bool) (base k h : Nat) (hk : k ≤ h) :
    candidates m base h
      = candidates m base k ++ (List.range' (base + 1 + k) (h - k)).filter m := by
  unfold candidates
  rw [← List.filter_append, List.range'_append_1, Nat.sub_add_cancel hk]

theorem next_schedules_horizon_stable (m : Nat → Bool) (s e r h : Nat)
    (hh : e - s ≤ h) :
    next_schedules_horizon m s e r h = next_schedules m s e r := by
  unfold next_schedules next_schedules_horizon
  rw [candidates_split m s (e - s) h hh]
  apply next_schedules_loop_append
  intro x hx
  have hx' := List.mem_of_mem_filter hx
  have := (List.mem_range'_1.mp hx').1
  omega

/-- Claim C3: the loop stops at the first candidate `eta ≥ stop_at` without
looking at anything after it; consequently the output is the same for every
sufficiently long prefix of the infinite cron iterator (the cost is bounded
by the window, not by the iterator); and `start_at = stop_at` yields the
empty sequence. -/
theorem C3_termination (m : Nat → Bool) (s e r h p eta : Nat) (rest : List Nat)
    (hh : e - s ≤ h) (he : e ≤ eta) :
    next_schedules_loop s e r (eta :: rest) p = []
      ∧ next_schedules_horizon m s e r h = next_schedules m s e r
      ∧ next_schedules m s s r = [] := by
  refine ⟨?_, next_schedules_horizon_stable m s e r h hh, ?_⟩
  · simp only [next_schedules_loop]
    rw [if_pos he]
  · simp [next_schedules, next_schedules_horizon, candidates, Nat.sub_self,
      next_schedules_loop]

theorem C3_termination_witness :
    ((5 : Nat) - 2 ≤ 4 ∧ (5 : Nat) ≤ 7)
      ∧ (next_schedules_loop 2 5 0 [7, 9] 0 = []
          ∧ next_schedules_horizon (fun t => t % 2 == 0) 2 5 0 4
              = next_schedules (fun t => t % 2 == 0) 2 5 0
          ∧ next_schedules (fun t => t % 2 == 0) 2 2 0 = []) :=
  ⟨⟨by decide, by decide⟩,
   C3_termination (fun t => t % 2 == 0) 2 5 0 4 0 7 [9] (by decide) (by decide)⟩

set_option maxRecDepth 100000 in
/-- Claim C2 counterexample: croniter yields matches strictly after its
initialisation time, so with cron `"0 * * * *"` over the window
[2024-01-01T00:00:00, 2024-01-01T03:00:00) and resolution 0 the code never
yields the boundary instant 00:00 — the output is not the claimed triple
00:00, 01:00, 02:00. -/
theorem C2_example_counterexample :
    next_schedules hourly_cron jan1_2024 (jan1_2024 + 10800) 0
      ≠ [jan1_2024, jan1_2024 + 3600, jan1_2024 + 7200] := by decide

set_option maxRecDepth 100000 in
/-- Claim C2 amended: over that window the code yields 01:00 and 02:00 at
resolution 0 (00:00 excluded, since the cron iterator starts strictly after
`start_at`), and only 01:00 at resolution 7200 (02:00 suppressed: its gap
from the previous kept timestamp 01:00 is 3600 < 7200 seconds). -/
theorem C2_example_amended :
    next_schedules hourly_cron jan1_2024 (jan1_2024 + 10800) 0
        = [jan1_2024 + 3600, jan1_2024 + 7200]
      ∧ next_schedules hourly_cron jan1_2024 (jan1_2024 + 10800) 7200
        = [jan1_2024 + 3600] := by
  constructor <;> decide

/-!
Delivery pipeline (schedules.py lines 42-344, models in
`superset/models/schedules.py`).

External collaborators (webdriver, HTTP client, SMTP transport, croniter,
the app config) are modelled as oracles supplying the outcome of each
external call, and every externally visible step is recorded in a trace of
`Act`s.  Each embedded function takes the trace accumulated so far and
returns its result — `Except.error` models a raised exception — together
with the extended trace.
-/

/-- Python values as far as the dispatcher hands them to the e-mail
transport: the `to` argument is either a plain string or — via the trailing
comma at line 49, `to = schedule.recipients,` — a one-element tuple holding
a string. -/
inductive PyVal
  | str (s : String)
  | tuple1 (s : String)
deriving DecidableEq

/-- Exceptions of the pipeline.  `remoteDisconnected`/`connectionReset` are
the transient driver-transport errors the bounded retry catches;
`webDriverException` is selenium's WebDriverException; `runtimeError` is
Python's RuntimeError; `unboundLocal` models reading a local variable that
no branch assigned; `attributeError` models an attribute access on None;
`typeError` models a call with missing required arguments. -/
inductive Err
  | remoteDisconnected
  | connectionReset
  | webDriverException
  | httpError
  | smtpError
  | runtimeError (msg : String)
  | unboundLocal (name : String)
  | attributeError
  | typeError
deriving DecidableEq

/-- Externally visible steps of one delivery.  `createWebdriver` stands for
the whole of `create_webdriver` (lines 119-159: driver launch, welcome-page
hit and cookie injection). -/
inductive Act
  | createWebdriver
  | setWindowSize (kind : String)
  | navigate (url : String)
  | sleep (seconds : Nat)
  | findElement (selector : String)
  | elementScreenshot
  | fullScreenshot
  | driverQuit
  | httpGet (url : String)
  | sendEmail (dst : PyVal) (bcc : Option String) (subject : String)
deriving DecidableEq

/-- The ambient app config keys the pipeline reads. -/
structure Config where
  email_report_bcc_address : Option String
  smtp_mail_from : String
  /-- EMAIL_REPORTS_SUBJECT_PREFIX -/
  email_reports_subject : String
  webdriver_baseurl : String
deriving DecidableEq

structure Dashboard where
  slug : String
  dashboard_title : String
deriving DecidableEq

structure Slice where
  id : Nat
  slice_name : String
deriving DecidableEq

inductive EmailDeliveryType
  | attachment
  | inline
deriving DecidableEq

inductive SliceEmailReportFormat
  | visualization
  | data
deriving DecidableEq

inductive ScheduleType
  | dashboard
  | slice
deriving DecidableEq

/-- Columns shared by both schedule models (models/schedules.py lines
38-60).  `delivery_type` is an enum column: `none` models a value that is
not one of the recognised enum members (NULL or unrecognised). -/
structure EmailScheduleBase where
  id : Nat
  active : Bool
  crontab : String
  recipients : String
  deliver_as_group : Bool
  delivery_type : Option EmailDeliveryType
deriving DecidableEq

structure DashboardEmailSchedule extends EmailScheduleBase where
  dashboard : Dashboard
deriving DecidableEq

structure SliceEmailSchedule extends EmailScheduleBase where
  slice : Slice
  email_format : Option SliceEmailReportFormat
deriving DecidableEq

/-- The external schedule store (read-only): `get(id)` is primary-key
lookup, `filter(active=True)` filters these lists. -/
structure Store where
  dashboards : List DashboardEmailSchedule
  slices : List SliceEmailSchedule

instance {ε α : Type} [DecidableEq ε] [DecidableEq α] :
    DecidableEq (Except ε α) := fun x y =>
  match x, y with
  | Except.ok a, Except.ok b =>
    if h : a = b then isTrue (congrArg Except.ok h)
    else isFalse fun hc => h (Except.ok.inj hc)
  | Except.error a, Except.error b =>
    if h : a = b then isTrue (congrArg Except.error h)
    else isFalse fun hc => h (Except.error.inj hc)
  | Except.ok _, Except.error _ => isFalse fun hc => Except.noConfusion hc
  | Except.error _, Except.ok _ => isFalse fun hc => Except.noConfusion hc

/-- Oracle for the browser-driver calls of one capture: the results of the
two element-lookup attempts the bounded retry can make, of
`element.screenshot_as_png`, and of the full-page `driver.screenshot()`
fallback. -/
structure DriverEnv where
  find1 : Except Err Unit
  find2 : Except Err Unit
  element_screenshot : Except Err String
  full_screenshot : Except Err String
deriving DecidableEq

/-- Oracles for all external collaborators of one delivery run:
browser driver, CSV-export HTTP response body (error = non-success status
raised by `raise_for_status`), the message id minted by `make_msgid`, and
the SMTP transport's outcome per `to` value. -/
structure Env where
  driver : DriverEnv
  http_body : Except Err String
  msgid : String
  send : PyVal → Except Err Unit

/-- EmailContent (line 42): body markup, attachment mapping, inline-image
mapping. -/
structure EmailContent where
  body : String
  data : Option (List (String × String))
  images : Option (List (String × String))
deriving DecidableEq

/-- PAGE_RENDER_WAIT (line 39). -/
def PAGE_RENDER_WAIT : Nat := 30

/-- Modelled from the spec: `superset.utils.get_email_address_list` parses
the recipient specification as a delimited list of individual addresses
(comma-delimited). -/
def splitCommaAux : List Char → List Char → List String
  | [], acc => [acc.reverse.asString]
  | c :: cs, acc =>
    if c = ',' then acc.reverse.asString :: splitCommaAux cs []
    else splitCommaAux cs (c :: acc)

def get_email_address_list (s : String) : List String :=
  splitCommaAux s.toList []

/-- Embeds `_get_recipients` (lines 45-53).  In the `deliver_as_group` branch the
trailing comma at line 49 (`to = schedule.recipients,`) makes `to` the
one-element tuple containing the whole recipient specification; otherwise
one entry per parsed address.  Every entry carries the configured bcc. -/
def _get_recipients (cfg : Config) (schedule : EmailScheduleBase) :
    List (PyVal × Option String) :=
  let bcc := cfg.email_report_bcc_address
  if schedule.deliver_as_group then
    [(PyVal.tuple1 schedule.recipients, bcc)]
  else
    (get_email_address_list schedule.recipients).map fun addr => (PyVal.str addr, bcc)

/-- The loop of `_deliver_email` (lines 56-64): one `send_email_smtp` call
per entry of `_get_recipients`.  There is no exception handling around the
loop body, so a transport error propagates and aborts the iteration. -/
def _deliver_email_loop (send : PyVal → Except Err Unit) (subject : String) :
    List (PyVal × Option String) → List Act → Except Err Unit × List Act
  | [], tr => (Except.ok (), tr)
  | (dst, bcc) :: rest, tr =>
    let tr := tr ++ [Act.sendEmail dst bcc subject]
    match send dst with
    | Except.error e => (Except.error e, tr)
    | Except.ok _ => _deliver_email_loop send subject rest tr

def _deliver_email (cfg : Config) (send : PyVal → Except Err Unit)
    (schedule : EmailScheduleBase) (subject : String) (_email : EmailContent)
    (tr : List Act) : Except Err Unit × List Act :=
  _deliver_email_loop send subject (_get_recipients cfg schedule) tr

/-- Embeds `_generate_mail_content` (lines 67-96).  The `if`/`elif` on
`delivery_type` has no `else` branch: for an unrecognised value the final
`return EmailContent(body, data, images)` reads the never-assigned local
`body` and raises UnboundLocalError.  `msgid` models the id minted by
`make_msgid(domain)` with the domain taken from the configured From
address. -/
def _generate_mail_content (cfg : Config) (msgid : String)
    (schedule : EmailScheduleBase) (screenshot name url : String) :
    Except Err EmailContent :=
  match schedule.delivery_type with
  | some EmailDeliveryType.attachment =>
    Except.ok
      { body := "<b><a href=\"" ++ url ++ "\">Explore in Superset</a></b><p></p>"
        data := some [("screenshot.jpg", screenshot)]
        images := none }
  | some EmailDeliveryType.inline =>
    Except.ok
      { body := "<b><a href=\"" ++ url
          ++ "\">Explore in Superset</a></b><p></p><img src=\"cid:" ++ msgid ++ "\">"
        data := none
        images := some [(msgid, screenshot)] }
  | none => Except.error (Err.unboundLocal "body")

/-- Modelled from the spec: `superset.utils.retry((RemoteDisconnected,
ConnectionResetError))` is a bounded retry — one retry — that catches only
the transient connection-reset/disconnect driver-transport errors; any
other error propagates immediately. -/
def retryable : Err → Bool
  | Err.remoteDisconnected => true
  | Err.connectionReset => true
  | _ => false

/-- The retried element lookup (`get_element` at lines 179-185/287-294):
first attempt; on a retryable error a single second attempt whose outcome
is final; a non-retryable error propagates immediately. -/
def get_element (d : DriverEnv) (selector : String) (tr : List Act) :
    Except Err Unit × List Act :=
  let tr := tr ++ [Act.findElement selector]
  match d.find1 with
  | Except.ok u => (Except.ok u, tr)
  | Except.error e =>
    if retryable e then
      (d.find2, tr ++ [Act.findElement selector])
    else
      (Except.error e, tr)

/-- The `try: element.screenshot_as_png / except WebDriverException:
driver.screenshot() / finally: driver.quit()` block (lines 187-194 and
296-303): full-page fallback only on WebDriverException, and the driver is
quit on every exit path of this block — but only of this block. -/
def screenshot_finally (d : DriverEnv) (tr : List Act) :
    Except Err String × List Act :=
  let tr := tr ++ [Act.elementScreenshot]
  let res : Except Err String × List Act :=
    match d.element_screenshot with
    | Except.ok s => (Except.ok s, tr)
    | Except.error Err.webDriverException =>
      (d.full_screenshot, tr ++ [Act.fullScreenshot])
    | Except.error e => (Except.error e, tr)
  (res.1, res.2 ++ [Act.driverQuit])

/-- Embeds `deliver_dashboard` (lines 162-210).  Note that the try/finally only
encloses the screenshot step: an exception raised by the element lookup (or
any earlier step after the driver was created) returns without
`driver.quit()`. -/
def deliver_dashboard (cfg : Config) (env : Env)
    (schedule : DashboardEmailSchedule) (tr : List Act) :
    Except Err Unit × List Act :=
  let dashboard_url := cfg.webdriver_baseurl ++ "/superset/dashboard/"
    ++ schedule.dashboard.slug ++ "/"
  let tr := tr ++ [Act.createWebdriver, Act.setWindowSize "dashboard",
    Act.navigate dashboard_url, Act.sleep PAGE_RENDER_WAIT]
  match get_element env.driver "grid-container" tr with
  | (Except.error e, tr) => (Except.error e, tr)
  | (Except.ok _, tr) =>
    match screenshot_finally env.driver tr with
    | (Except.error e, tr) => (Except.error e, tr)
    | (Except.ok screenshot, tr) =>
      match _generate_mail_content cfg env.msgid schedule.toEmailScheduleBase
          screenshot schedule.dashboard.dashboard_title dashboard_url with
      | Except.error e => (Except.error e, tr)
      | Except.ok email =>
        let subject := cfg.email_reports_subject ++ " "
          ++ schedule.dashboard.dashboard_title
        _deliver_email cfg env.send schedule.toEmailScheduleBase subject email tr

/-- Embeds `_get_slice_data` (lines 213-265): authenticated CSV-export fetch; a
non-success status raises via `raise_for_status`.  The `if`/`elif` on
`delivery_type` has no `else`: for an unrecognised value the trailing
`return EmailContent(body, data, None)` raises UnboundLocalError — after
the network fetch.  The inline body stands for the rendered
`superset/reports/slice_data.html` table. -/
def _get_slice_data (cfg : Config) (env : Env) (schedule : SliceEmailSchedule)
    (tr : List Act) : Except Err EmailContent × List Act :=
  let slice_url := cfg.webdriver_baseurl ++ "/superset/slice_json/"
    ++ toString schedule.slice.id ++ "/?csv=true"
  let url := cfg.webdriver_baseurl ++ "/superset/slice/"
    ++ toString schedule.slice.id ++ "/"
  let tr := tr ++ [Act.httpGet slice_url]
  match env.http_body with
  | Except.error e => (Except.error e, tr)
  | Except.ok content =>
    match schedule.delivery_type with
    | some EmailDeliveryType.inline =>
      (Except.ok
        { body := "slice_data.html:" ++ schedule.slice.slice_name ++ ":" ++ url
          data := none
          images := none }, tr)
    | some EmailDeliveryType.attachment =>
      (Except.ok
        { body := "<b><a href=\"" ++ url ++ "\">" ++ schedule.slice.slice_name
            ++ "</a></b><br/>"
          data := some [(schedule.slice.slice_name ++ ".csv", content)]
          images := none }, tr)
    | none => (Except.error (Err.unboundLocal "body"), tr)

/-- Embeds `_get_slice_visualization` (lines 268-311): same capture shape as the
dashboard flow, on the chart container, returning the generated mail
content. -/
def _get_slice_visualization (cfg : Config) (env : Env)
    (schedule : SliceEmailSchedule) (tr : List Act) :
    Except Err EmailContent × List Act :=
  let slice_url := cfg.webdriver_baseurl ++ "/superset/slice/"
    ++ toString schedule.slice.id ++ "/"
  let tr := tr ++ [Act.createWebdriver, Act.setWindowSize "slice",
    Act.navigate slice_url, Act.sleep PAGE_RENDER_WAIT]
  match get_element env.driver "chart-container" tr with
  | (Except.error e, tr) => (Except.error e, tr)
  | (Except.ok _, tr) =>
    match screenshot_finally env.driver tr with
    | (Except.error e, tr) => (Except.error e, tr)
    | (Except.ok screenshot, tr) =>
      (_generate_mail_content cfg env.msgid schedule.toEmailScheduleBase
        screenshot schedule.slice.slice_name slice_url, tr)

/-- Embeds `deliver_slice` (lines 314-328): branch on `email_format`; an
unrecognised format raises `RuntimeError('Unknown email report format')`
before anything else happens; otherwise build the content and deliver. -/
def deliver_slice (cfg : Config) (env : Env) (schedule : SliceEmailSchedule)
    (tr : List Act) : Except Err Unit × List Act :=
  match
    (match schedule.email_format with
      | some SliceEmailReportFormat.data => _get_slice_data cfg env schedule tr
      | some SliceEmailReportFormat.visualization =>
        _get_slice_visualization cfg env schedule tr
      | none => (Except.error (Err.runtimeError "Unknown email report format"), tr))
  with
  | (Except.error e, tr) => (Except.error e, tr)
  | (Except.ok email, tr) =>
    let subject := cfg.email_reports_subject ++ " " ++ schedule.slice.slice_name
    _deliver_email cfg env.send schedule.toEmailScheduleBase subject email tr

def getDashboardSchedule (store : Store) (schedule_id : Nat) :
    Option DashboardEmailSchedule :=
  store.dashboards.find? fun sc => sc.id == schedule_id

def getSliceSchedule (store : Store) (schedule_id : Nat) :
    Option SliceEmailSchedule :=
  store.slices.find? fun sc => sc.id == schedule_id

/-- The `active` flag of the schedule `schedule_email_report` re-fetches:
`none` when `model_cls.get(id=schedule_id)` returns no record. -/
def fetchedActive (store : Store) (report_type : ScheduleType)
    (schedule_id : Nat) : Option Bool :=
  match report_type with
  | ScheduleType.dashboard =>
    (getDashboardSchedule store schedule_id).map fun sc => sc.active
  | ScheduleType.slice =>
    (getSliceSchedule store schedule_id).map fun sc => sc.active

/-- Embeds `schedule_email_report` (lines 331-344): re-fetch the schedule by id —
`model_cls.get` returns None for a missing id, and the unguarded
`schedule.active` on None raises AttributeError; an inactive schedule
returns immediately with nothing done; otherwise dispatch by report type
(`get_scheduler_model`, models/schedules.py lines 90-94, picks the store
table). -/
def schedule_email_report (cfg : Config) (env : Env) (store : Store)
    (report_type : ScheduleType) (schedule_id : Nat) :
    Except Err Unit × List Act :=
  match report_type with
  | ScheduleType.dashboard =>
    match getDashboardSchedule store schedule_id with
    | none => (Except.error Err.attributeError, [])
    | some schedule =>
      if !schedule.active then (Except.ok (), [])
      else deliver_dashboard cfg env schedule []
  | ScheduleType.slice =>
    match getSliceSchedule store schedule_id with
    | none => (Except.error Err.attributeError, [])
    | some schedule =>
      if !schedule.active then (Except.ok (), [])
      else deliver_slice cfg env schedule []

/-- An enqueued delivery task: `(report_type, schedule.id)` plus its eta. -/
abbrev EnqueuedTask := ScheduleType × Nat × Nat

/-- Embeds `schedule_window` (lines 366-385): for every schedule of the given type
with `active = true`, enqueue one task per eta yielded by `next_schedules`.
The cron semantics of each crontab string is supplied by the external
`cron` oracle (croniter's matching predicate). -/
def schedule_window (cron : String → Nat → Bool) (store : Store)
    (report_type : ScheduleType) (start_at stop_at resolution : Nat) :
    List EnqueuedTask :=
  match report_type with
  | ScheduleType.dashboard =>
    (store.dashboards.filter fun sc => sc.active).flatMap fun sc =>
      (next_schedules (cron sc.crontab) start_at stop_at resolution).map
        fun eta => (report_type, sc.id, eta)
  | ScheduleType.slice =>
    (store.slices.filter fun sc => sc.active).flatMap fun sc =>
      (next_schedules (cron sc.crontab) start_at stop_at resolution).map
        fun eta => (report_type, sc.id, eta)

/-- Python positional binding for the window arguments of `schedule_window`
(`report_type` is passed separately): the def at line 366 declares exactly
three further positional parameters, none with a default, so a call
supplying any other number of them raises TypeError. -/
def callSchedule_window (cron : String → Nat → Bool) (store : Store)
    (report_type : ScheduleType) : List Nat → Except Err (List EnqueuedTask)
  | [start_at, stop_at, resolution] =>
    Except.ok (schedule_window cron store report_type start_at stop_at resolution)
  | _ => Except.error Err.typeError

/-- Embeds `schedule_hourly` (lines 388-396): truncate `now` to the top of the
hour, take the one-hour window, and call `schedule_window` once per report
type — but the calls at lines 395-396 pass only
`(report_type, start_at, stop_at)`, omitting the required `resolution`
parameter. -/
def schedule_hourly (cron : String → Nat → Bool) (store : Store) (now : Nat) :
    Except Err (List EnqueuedTask) :=
  let start_at := now - now % 3600
  let stop_at := start_at + 3600
  match callSchedule_window cron store ScheduleType.dashboard [start_at, stop_at] with
  | Except.error e => Except.error e
  | Except.ok t1 =>
    match callSchedule_window cron store ScheduleType.slice [start_at, stop_at] with
    | Except.error e => Except.error e
    | Except.ok t2 => Except.ok (t1 ++ t2)

def sampleConfig : Config where
  email_report_bcc_address := some "audit@x.com"
  smtp_mail_from := "reports@x.com"
  email_reports_subject := "[Report]"
  webdriver_baseurl := "http://localhost:8888"

def sampleDriver : DriverEnv where
  find1 := Except.ok ()
  find2 := Except.ok ()
  element_screenshot := Except.ok "shot"
  full_screenshot := Except.ok "full"

def sampleEnv : Env where
  driver := sampleDriver
  http_body := Except.ok "csvdata"
  msgid := "mid1"
  send := fun _ => Except.ok ()

def sampleEmail : EmailContent where
  body := "body"
  data := none
  images := none

def inactiveDashboardSchedule : DashboardEmailSchedule where
  id := 1
  active := false
  crontab := "0 * * * *"
  recipients := "a@x.com"
  deliver_as_group := false
  delivery_type := some EmailDeliveryType.attachment
  dashboard := { slug := "births", dashboard_title := "Births" }

def sampleStore : Store where
  dashboards := [inactiveDashboardSchedule]
  slices := []

def emptyStore : Store where
  dashboards := []
  slices := []

/-- Claim C4: a delivery task whose re-fetched schedule is inactive at run
time returns at once with no error and an empty action trace — no capture,
no formatting, no send — whatever the report type and the schedule's other
fields. -/
theorem C4_inactive_skip (cfg : Config) (env : Env) (store : Store)
    (report_type : ScheduleType) (schedule_id : Nat)
    (h : fetchedActive store report_type schedule_id = some false) :
    schedule_email_report cfg env store report_type schedule_id
      = (Except.ok (), []) := by
  cases report_type with
  | dashboard =>
    simp only [fetchedActive] at h
    simp only [schedule_email_report]
    cases hg : getDashboardSchedule store schedule_id with
    | none => rw [hg] at h; simp at h
    | some sc =>
      rw [hg] at h
      simp only [Option.map_some'] at h
      have ha : sc.active = false := by injection h
      simp [ha]
  | slice =>
    simp only [fetchedActive] at h
    simp only [schedule_email_report]
    cases hg : getSliceSchedule store schedule_id with
    | none => rw [hg] at h; simp at h
    | some sc =>
      rw [hg] at h
      simp only [Option.map_some'] at h
      have ha : sc.active = false := by injection h
      simp [ha]

theorem C4_inactive_skip_witness :
    fetchedActive sampleStore ScheduleType.dashboard 1 = some false
      ∧ schedule_email_report sampleConfig sampleEnv sampleStore
          ScheduleType.dashboard 1 = (Except.ok (), []) :=
  ⟨by decide, C4_inactive_skip sampleConfig sampleEnv sampleStore
      ScheduleType.dashboard 1 (by decide)⟩

/-- Claim C10: when the store's get-by-id finds no record (schedule deleted
between enqueue and eta), the unguarded `schedule.active` check runs on
None and the task fails with AttributeError — it is not a graceful skip;
only deactivation is handled gracefully. -/
theorem C10_deleted_schedule_fails (cfg : Config) (env : Env) (store : Store)
    (report_type : ScheduleType) (schedule_id : Nat)
    (h : fetchedActive store report_type schedule_id = none) :
    schedule_email_report cfg env store report_type schedule_id
      = (Except.error Err.attributeError, []) := by
  cases report_type with
  | dashboard =>
    simp only [fetchedActive] at h
    simp only [schedule_email_report]
    cases hg : getDashboardSchedule store schedule_id with
    | none => rfl
    | some sc => rw [hg] at h; simp at h
  | slice =>
    simp only [fetchedActive] at h
    simp only [schedule_email_report]
    cases hg : getSliceSchedule store schedule_id with
    | none => rfl
    | some sc => rw [hg] at h; simp at h

theorem C10_deleted_schedule_fails_witness :
    fetchedActive emptyStore ScheduleType.slice 5 = none
      ∧ schedule_email_report sampleConfig sampleEnv emptyStore ScheduleType.slice 5
          = (Except.error Err.attributeError, []) :=
  ⟨by decide, C10_deleted_schedule_fails sampleConfig sampleEnv emptyStore
      ScheduleType.slice 5 (by decide)⟩

/-- Claim C5 (code bug): `schedule_hourly` computes the top-of-hour one-hour
window, but its calls at lines 395-396 omit the required `resolution`
parameter of `schedule_window` (line 366 declares it with no default), so
every hourly tick raises TypeError and the dispatch loop never runs; a call
supplying all three window arguments binds them and runs `schedule_window`
normally. -/
theorem C5_hourly_type_error (cron : String → Nat → Bool) (store : Store)
    (now s e r : Nat) (report_type : ScheduleType) :
    schedule_hourly cron store now = Except.error Err.typeError
      ∧ callSchedule_window cron store report_type [s, e, r]
          = Except.ok (schedule_window cron store report_type s e r) :=
  ⟨rfl, rfl⟩

def isOkResult : Except Err Unit → Bool
  | Except.ok _ => true
  | Except.error _ => false

/-- The recipients `_deliver_email` actually attempts: everything up to and
including the first one whose send fails. -/
def attemptedRecipients (send : PyVal → Except Err Unit) :
    List (PyVal × Option String) → List (PyVal × Option String)
  | [] => []
  | (dst, bcc) :: rest =>
    if isOkResult (send dst) then (dst, bcc) :: attemptedRecipients send rest
    else [(dst, bcc)]

def firstSendError (send : PyVal → Except Err Unit) :
    List (PyVal × Option String) → Option Err
  | [] => none
  | (dst, _) :: rest =>
    match send dst with
    | Except.error e => some e
    | Except.ok _ => firstSendError send rest

theorem _deliver_email_loop_spec (send : PyVal → Except Err Unit)
    (subject : String) :
    ∀ (l : List (PyVal × Option String)) (tr : List Act),
      _deliver_email_loop send subject l tr
        = ((match firstSendError send l with
            | some e => Except.error e
            | none => Except.ok ()),
           tr ++ (attemptedRecipients send l).map
             fun p => Act.sendEmail p.1 p.2 subject) := by
  intro l
  induction l with
  | nil => intro tr; simp [_deliver_email_loop, firstSendError, attemptedRecipients]
  | cons p rest ih =>
    intro tr
    obtain ⟨dst, bcc⟩ := p
    simp only [_deliver_email_loop, firstSendError, attemptedRecipients]
    cases hs : send dst with
    | error e => simp [hs, isOkResult]
    | ok u => simp [hs, isOkResult, ih]

def c6Schedule : EmailScheduleBase where
  id := 6
  active := true
  crontab := "0 * * * *"
  recipients := "a@x.com,b@x.com"
  deliver_as_group := false
  delivery_type := some EmailDeliveryType.attachment

def c6Send : PyVal → Except Err Unit :=
  fun dst =>
    if dst = PyVal.str "a@x.com" then Except.error Err.smtpError
    else Except.ok ()

/-- Claim C6 counterexample: two individual recipients and a transport that
fails for the first one — the loop aborts with the transport error, the
only attempted send is to a@x.com, and b@x.com is never attempted. -/
theorem C6_send_counterexample :
    _deliver_email sampleConfig c6Send c6Schedule "subj" sampleEmail []
        = (Except.error Err.smtpError,
           [Act.sendEmail (PyVal.str "a@x.com") (some "audit@x.com") "subj"])
      ∧ Act.sendEmail (PyVal.str "b@x.com") (some "audit@x.com") "subj"
          ∉ (_deliver_email sampleConfig c6Send c6Schedule "subj" sampleEmail []).2 :=
  ⟨by decide, by decide⟩

/-- Claim C6 amended: sends are attempted strictly in order and a transport
failure aborts the loop — the attempted sends are exactly the recipients up
to and including the first failing one, whose error propagates; recipients
after it get no attempt. -/
theorem C6_send_amended (cfg : Config) (send : PyVal → Except Err Unit)
    (schedule : EmailScheduleBase) (subject : String) (email : EmailContent) :
    _deliver_email cfg send schedule subject email []
      = ((match firstSendError send (_get_recipients cfg schedule) with
          | some e => Except.error e
          | none => Except.ok ()),
         (attemptedRecipients send (_get_recipients cfg schedule)).map
           fun p => Act.sendEmail p.1 p.2 subject) := by
  have h := _deliver_email_loop_spec send subject (_get_recipients cfg schedule) []
  simpa [_deliver_email] using h

def c7Schedule : EmailScheduleBase where
  id := 7
  active := true
  crontab := "0 * * * *"
  recipients := "team@x.com"
  deliver_as_group := true
  delivery_type := some EmailDeliveryType.attachment

/-- Claim C7 counterexample: with `deliver_as_group` set, the single
yielded `to` value is the one-element tuple `("team@x.com",)` built by the
trailing comma at line 49 — not the plain string `team@x.com` the claim
names as the send's `to` value. -/
theorem C7_group_counterexample :
    _get_recipients sampleConfig c7Schedule
        = [(PyVal.tuple1 "team@x.com", some "audit@x.com")]
      ∧ _get_recipients sampleConfig c7Schedule
          ≠ [(PyVal.str "team@x.com", some "audit@x.com")] :=
  ⟨by decide, by decide⟩

/-- Claim C7 amended: exactly one send is issued; its `to` value is the
one-element tuple wrapping the entire recipient specification (trailing
comma at line 49), and the configured bcc is attached once. -/
theorem C7_group_amended :
    _deliver_email sampleConfig (fun _ => Except.ok ()) c7Schedule "subj"
        sampleEmail []
      = (Except.ok (),
         [Act.sendEmail (PyVal.tuple1 "team@x.com") (some "audit@x.com") "subj"]) := by
  decide

def c8Slice : Slice where
  id := 3
  slice_name := "Energy"

def c8VizSchedule : SliceEmailSchedule where
  id := 8
  active := true
  crontab := "0 * * * *"
  recipients := "team@x.com"
  deliver_as_group := true
  delivery_type := none
  slice := c8Slice
  email_format := some SliceEmailReportFormat.visualization

def c8DataSchedule : SliceEmailSchedule where
  id := 80
  active := true
  crontab := "0 * * * *"
  recipients := "team@x.com"
  deliver_as_group := true
  delivery_type := none
  slice := c8Slice
  email_format := some SliceEmailReportFormat.data

/-- Claim C8 counterexample: an unrecognised `delivery_type` under the
visualization format is only detected inside `_generate_mail_content`,
after the whole browser capture already ran: when the unbound-local error
surfaces, the trace already contains the navigation to the slice (a network
call), and the error is not the dedicated unsupported-format error. -/
theorem C8_format_counterexample :
    deliver_slice sampleConfig sampleEnv c8VizSchedule []
        = (Except.error (Err.unboundLocal "body"),
           [Act.createWebdriver, Act.setWindowSize "slice",
            Act.navigate "http://localhost:8888/superset/slice/3/",
            Act.sleep 30, Act.findElement "chart-container",
            Act.elementScreenshot, Act.driverQuit])
      ∧ Act.navigate "http://localhost:8888/superset/slice/3/"
          ∈ (deliver_slice sampleConfig sampleEnv c8VizSchedule []).2 :=
  ⟨by decide, by decide⟩

/-- Claim C8 amended: an unrecognised `email_format` does fail fast — the
RuntimeError is raised with the trace untouched, before any network call;
but an unrecognised `delivery_type` is only detected in the content
formatter, after the capture (visualization path) or export fetch (data
path) network calls, and surfaces as an unbound-local error rather than a
dedicated unsupported-format error. -/
theorem C8_format_amended (cfg : Config) (env : Env)
    (base : EmailScheduleBase) (slc : Slice) (tr : List Act) :
    deliver_slice cfg env ⟨base, slc, none⟩ tr
        = (Except.error (Err.runtimeError "Unknown email report format"), tr)
      ∧ (deliver_slice sampleConfig sampleEnv c8VizSchedule []).1
          = Except.error (Err.unboundLocal "body")
      ∧ deliver_slice sampleConfig sampleEnv c8DataSchedule []
          = (Except.error (Err.unboundLocal "body"),
             [Act.httpGet "http://localhost:8888/superset/slice_json/3/?csv=true"]) :=
  ⟨rfl, by decide, by decide⟩

theorem _deliver_email_loop_trace_mem (send : PyVal → Except Err Unit)
    (subject : String) (x : Act) :
    ∀ (l : List (PyVal × Option String)) (tr : List Act), x ∈ tr →
      x ∈ (_deliver_email_loop send subject l tr).2 := by
  intro l
  induction l with
  | nil => intro tr h; exact h
  | cons p rest ih =>
    intro tr h
    obtain ⟨dst, bcc⟩ := p
    simp only [_deliver_email_loop]
    cases hs : send dst with
    | error e =>
      simp only [hs]
      exact List.mem_append_left _ h
    | ok u =>
      simp only [hs]
      exact ih _ (List.mem_append_left _ h)

theorem deliver_dashboard_quit (cfg : Config) (f2 : Except Err Unit)
    (es fs hb : Except Err String) (msgid : String)
    (send : PyVal → Except Err Unit) (sch : DashboardEmailSchedule)
    (tr : List Act) :
    Act.driverQuit ∈ (deliver_dashboard cfg
        ⟨⟨Except.ok (), f2, es, fs⟩, hb, msgid, send⟩ sch tr).2 := by
  obtain ⟨⟨i, ac, cr, rec, grp, dt⟩, dash⟩ := sch
  cases dt with
  | none =>
    cases es with
    | ok s =>
      simp [deliver_dashboard, get_element, screenshot_finally,
        _generate_mail_content]
    | error e =>
      cases fs <;> cases e <;>
        simp [deliver_dashboard, get_element, screenshot_finally,
          _generate_mail_content]
  | some dtv =>
    cases es with
    | ok s =>
      cases dtv <;>
        (simp only [deliver_dashboard, get_element, screenshot_finally,
           _generate_mail_content, _deliver_email]
         apply _deliver_email_loop_trace_mem
         simp)
    | error e =>
      cases fs with
      | ok s2 =>
        cases e <;>
          first
            | (cases dtv <;>
                (simp only [deliver_dashboard, get_element, screenshot_finally,
                   _generate_mail_content, _deliver_email]
                 apply _deliver_email_loop_trace_mem
                 simp))
            | simp [deliver_dashboard, get_element, screenshot_finally,
                _generate_mail_content]
      | error e2 =>
        cases e <;>
          simp [deliver_dashboard, get_element, screenshot_finally,
            _generate_mail_content]

theorem slice_visualization_quit (cfg : Config) (f2 : Except Err Unit)
    (es fs hb : Except Err String) (msgid : String)
    (send : PyVal → Except Err Unit) (sch : SliceEmailSchedule)
    (tr : List Act) :
    Act.driverQuit ∈ (_get_slice_visualization cfg
        ⟨⟨Except.ok (), f2, es, fs⟩, hb, msgid, send⟩ sch tr).2 := by
  cases es with
  | ok s => simp [_get_slice_visualization, get_element, screenshot_finally]
  | error e =>
    cases fs <;> cases e <;>
      simp [_get_slice_visualization, get_element, screenshot_finally]

def c9Driver : DriverEnv where
  find1 := Except.error Err.connectionReset
  find2 := Except.error Err.connectionReset
  element_screenshot := Except.ok "shot"
  full_screenshot := Except.ok "full"

def c9Env : Env where
  driver := c9Driver
  http_body := Except.ok "csvdata"
  msgid := "mid1"
  send := fun _ => Except.ok ()

def c9Schedule : DashboardEmailSchedule where
  id := 9
  active := true
  crontab := "0 * * * *"
  recipients := "team@x.com"
  deliver_as_group := true
  delivery_type := some EmailDeliveryType.attachment
  dashboard := { slug := "births", dashboard_title := "Births" }

/-- Claim C9 counterexample: both element-lookup attempts raise a
connection reset, the error propagates from before the try/finally block,
and the created driver session is never quit — an exit path of the capture
flow on which the browser session is not terminated. -/
theorem C9_cleanup_counterexample :
    deliver_dashboard sampleConfig c9Env c9Schedule []
        = (Except.error Err.connectionReset,
           [Act.createWebdriver, Act.setWindowSize "dashboard",
            Act.navigate "http://localhost:8888/superset/dashboard/births/",
            Act.sleep 30, Act.findElement "grid-container",
            Act.findElement "grid-container"])
      ∧ Act.driverQuit ∉ (deliver_dashboard sampleConfig c9Env c9Schedule []).2 :=
  ⟨by decide, by decide⟩

/-- Claim C9 amended: inside the screenshot try/finally the session is
always quit — in both capture flows, for every screenshot, fallback,
formatter and transport outcome, the trace contains `driverQuit`; but an
exception from the element lookup (exhausted retry, or a non-retryable
error on the first attempt) propagates from before that block and the
session is never quit. -/
theorem C9_cleanup_amended (cfg : Config) (f2 : Except Err Unit)
    (es fs hb : Except Err String) (msgid : String)
    (send : PyVal → Except Err Unit) (dsch : DashboardEmailSchedule)
    (ssch : SliceEmailSchedule) (e2 : Err) :
    Act.driverQuit ∈ (deliver_dashboard cfg
        ⟨⟨Except.ok (), f2, es, fs⟩, hb, msgid, send⟩ dsch []).2
      ∧ Act.driverQuit ∈ (_get_slice_visualization cfg
          ⟨⟨Except.ok (), f2, es, fs⟩, hb, msgid, send⟩ ssch []).2
      ∧ Act.driverQuit ∉ (deliver_dashboard cfg
          ⟨⟨Except.error Err.connectionReset, Except.error e2, es, fs⟩, hb,
            msgid, send⟩ dsch []).2
      ∧ Act.driverQuit ∉ (_get_slice_visualization cfg
          ⟨⟨Except.error Err.webDriverException, f2, es, fs⟩, hb, msgid,
            send⟩ ssch []).2 := by
  refine ⟨deliver_dashboard_quit cfg f2 es fs hb msgid send dsch [],
    slice_visualization_quit cfg f2 es fs hb msgid send ssch [], ?_, ?_⟩
  · simp [deliver_dashboard, get_element, retryable]
  · simp [_get_slice_visualization, get_element, retryable]
